import Mathlib

/-!
Shallow embedding of the scdetect detection engine (SeisComP-based template
matcher), covering the multi-channel linker (`src/apps/scdetect/detector/linker.cpp`),
the config-time validators (`src/apps/scdetect/validators.cpp`) and the waveform
trimming routine (`src/apps/scdetect/waveform.cpp`).

Conventions of the embedding:
* `Core::Time`, `Core::TimeSpan` and `double` are modelled as `ℚ` (exact
  arithmetic; the claims under study are about control flow and algebraic
  structure, not floating-point rounding).
* C++ `std::unordered_map` keyed by strings is modelled as an association list
  with unique keys; `emplace` is insert-if-absent, exactly as in C++ (it does
  NOT overwrite an existing key).
* `std::deque` is a `List`; the event queue is traversed front to back just as
  the C++ iterator loops do.
* Functions that in C++ publish through a callback instead return the list of
  published results.
-/

/- The Batteries rational arithmetic is `irreducible`, which blocks `decide`
on concrete states; proofs here only need it evaluable, not unfolded in
statements. -/
attribute [local semireducible] Rat.add Rat.sub Rat.mul Rat.inv

namespace SCDetect

/-- `static_cast<int>` applied to a real value: truncation toward zero. -/
def truncQ (x : ℚ) : ℤ := if 0 ≤ x then ⌊x⌋ else ⌈x⌉

/- ------------------------------------------------------------------------ -/
/- validators.cpp                                                           -/
/- ------------------------------------------------------------------------ -/

/-- `config::ValidateXCorrThreshold` (validators.cpp):
`return -1 <= thres && 1 >= thres;`. -/
def ValidateXCorrThreshold (thres : ℚ) : Bool :=
  decide (-1 ≤ thres) && decide (1 ≥ thres)

/-- `config::ValidateArrivalOffsetThreshold` (validators.cpp):
`return thres < 0 || (thres >= 2.0e-6);`. -/
def ValidateArrivalOffsetThreshold (thres : ℚ) : Bool :=
  decide (thres < 0) || decide (thres ≥ 2 / 1000000)

/- ------------------------------------------------------------------------ -/
/- waveform.cpp : waveform::Trim                                            -/
/- ------------------------------------------------------------------------ -/

/-- `GenericRecord` as used by `waveform::Trim`: a start time, a sampling
frequency and the sample data. -/
structure GenericRecord where
  startTime : ℚ
  samplingFrequency : ℚ
  data : List ℚ
  deriving DecidableEq, Repr

/-- `Core::TimeWindow`: a start and an end time. -/
structure TimeWindow where
  startTime : ℚ
  endTime : ℚ
  deriving DecidableEq, Repr

/-- `Core::TimeWindow::length()` is `endTime - startTime`. -/
def TimeWindow.length (tw : TimeWindow) : ℚ := tw.endTime - tw.startTime

/-- The start-sample offset computed by `waveform::Trim`:
`static_cast<int>(static_cast<double>(tw.startTime() - trace.startTime()) * trace.samplingFrequency())`. -/
def trimOffset (trace : GenericRecord) (tw : TimeWindow) : ℤ :=
  truncQ ((tw.startTime - trace.startTime) * trace.samplingFrequency)

/-- The sample count computed by `waveform::Trim`:
`static_cast<int>(tw.length() * trace.samplingFrequency())`. -/
def trimSamples (trace : GenericRecord) (tw : TimeWindow) : ℤ :=
  truncQ (tw.length * trace.samplingFrequency)

/-- `waveform::Trim` (waveform.cpp, lines 40-66).  Returns the C++ return
value together with the (possibly mutated) trace.  The two early `return
false` paths leave the trace untouched; the success path advances the start
time by `offset / samplingFrequency` and slices the data to
`[offset, offset + samples)`. -/
def Trim (trace : GenericRecord) (tw : TimeWindow) : Bool × GenericRecord :=
  let offset : ℤ := trimOffset trace tw
  let samples : ℤ := trimSamples trace tw
  if offset < 0 then (false, trace)
  else if offset + samples > (trace.data.length : ℤ) then (false, trace)
  else
    (true,
      { trace with
        startTime := trace.startTime + (offset : ℚ) / trace.samplingFrequency
        data := (trace.data.drop offset.toNat).take samples.toNat })

/- ------------------------------------------------------------------------ -/
/- Data model shared by the linker                                          -/
/- ------------------------------------------------------------------------ -/

/-- A pick: a time and the waveform stream identifier it belongs to. -/
structure Pick where
  time : ℚ
  waveformStreamId : String
  deriving DecidableEq, Repr

/-- An arrival: the expected timing of a phase at a station. -/
structure Arrival where
  pick : Pick
  phase : String
  deriving DecidableEq, Repr

/-- `TemplateWaveformProcessor::MatchResult`: the time window covered by the
match, the lag of the peak, and the normalized correlation coefficient. -/
structure MatchResult where
  timeWindowStart : ℚ
  lag : ℚ
  coefficient : ℚ
  deriving DecidableEq, Repr

/-- `Linker::Result::TemplateResult`: an arrival paired with the match result
it was derived from. -/
structure TemplateResult where
  arrival : Arrival
  matchResult : MatchResult
  deriving DecidableEq, Repr

abbrev ProcId := String

/-- Association-list model of an `std::unordered_map<std::string, V>` lookup
(`find`). -/
def alistFind (m : List (ProcId × α)) (k : ProcId) : Option α :=
  (m.find? (fun p => p.1 = k)).map (·.2)

/-- Association-list model of `std::unordered_map::emplace`: the entry is
inserted only when the key is absent; an existing entry is kept unchanged. -/
def alistEmplace (m : List (ProcId × α)) (k : ProcId) (v : α) : List (ProcId × α) :=
  if (m.find? (fun p => p.1 = k)).isSome then m else m ++ [(k, v)]

/-- Association-list model of `std::unordered_map::erase(key)`. -/
def alistErase (m : List (ProcId × α)) (k : ProcId) : List (ProcId × α) :=
  m.filter (fun p => !(p.1 = k : Bool))

/-- Modelled from the spec: `utils::cma` (declared in a header not part of the
sources at hand) computes the arithmetic mean of the values — spec §3:
"fit = mean of participating coefficients". -/
def cma (l : List ℚ) : ℚ := l.sum / l.length

/- ------------------------------------------------------------------------ -/
/- Pick-offset table (POT)                                                  -/
/- ------------------------------------------------------------------------ -/

/-- One row/column of a POT: an arrival together with its enable flag.
Modelled from the spec (§4.3, pot.h/pot.cpp are not among the sources at
hand): "given an ordered vector of arrivals store
`M[i][j] = |a_i.pickTime − a_j.pickTime|` and per-arrival enable flags
(default true)".  Since the matrix is determined by the arrivals, the
embedding stores the arrivals and flags and recomputes offsets on demand. -/
structure POTEntry where
  arrival : Arrival
  enabled : Bool
  deriving DecidableEq, Repr

/-- Modelled from the spec (§4.3): the pick-offset table over an ordered set
of arrivals with per-arrival enable flags. -/
structure POT where
  entries : List POTEntry
  deriving DecidableEq, Repr

/-- Modelled from the spec (§4.3): construction with all flags true. -/
def POT.ofArrivals (arrivals : List Arrival) : POT :=
  ⟨arrivals.map (fun a => ⟨a, true⟩)⟩

/-- Modelled from the spec (§4.3): `enable()` sets every flag. -/
def POT.enableAll (p : POT) : POT :=
  ⟨p.entries.map (fun e => { e with enabled := true })⟩

/-- Modelled from the spec (§4.3): `disable(streamIds)` clears the flag of
every arrival whose waveform stream id is in the given set. -/
def POT.disableStreams (p : POT) (wfIds : List String) : POT :=
  ⟨p.entries.map (fun e =>
    if e.arrival.pick.waveformStreamId ∈ wfIds then { e with enabled := false }
    else e)⟩

/-- The streams of a POT that are currently disabled. -/
def POT.disabledStreams (p : POT) : List String :=
  (p.entries.filter (fun e => !e.enabled)).map (·.arrival.pick.waveformStreamId)

/-- Every entry of the POT is enabled. -/
def POT.allEnabled (p : POT) : Bool := p.entries.all (·.enabled)

/-- Pick time of the (first) entry of a POT carrying the given stream id. -/
def POT.pickOf (p : POT) (s : String) : Option ℚ :=
  (p.entries.find? (fun e => e.arrival.pick.waveformStreamId = s)).map
    (·.arrival.pick.time)

/-- Modelled from the spec (§4.3): `validate(reference, candidate, tolerance)`
"succeeds iff, for every enabled pair (i, j),
`|reference[i][j] − candidate[i][j]| ≤ tolerance`; streams contributing any
violation are collected into `exceeded`".  Pairs are matched up by waveform
stream id; pairs whose streams do not both occur in the candidate contribute
nothing. -/
def validatePickOffsets (ref cand : POT) (tolerance : ℚ) : Bool × List String :=
  let enabledEntries := ref.entries.filter (·.enabled)
  let offending : List String :=
    (enabledEntries.product enabledEntries).foldr
      (fun pair acc =>
        let s₁ := pair.1.arrival.pick.waveformStreamId
        let s₂ := pair.2.arrival.pick.waveformStreamId
        match cand.pickOf s₁, cand.pickOf s₂ with
        | some p₁, some p₂ =>
          let refOff := |pair.1.arrival.pick.time - pair.2.arrival.pick.time|
          let candOff := |p₁ - p₂|
          if |refOff - candOff| > tolerance then s₁ :: s₂ :: acc else acc
        | _, _ => acc)
      []
  (offending.isEmpty, offending.dedup)

/- ------------------------------------------------------------------------ -/
/- Linker                                                                   -/
/- ------------------------------------------------------------------------ -/

/-- `Linker::Result`: the fit, the reference processor id, the per-processor
template results and the event's POT. -/
structure LinkerResult where
  results : List (ProcId × TemplateResult)
  fit : ℚ
  refProcId : ProcId
  pot : POT
  deriving DecidableEq, Repr

/-- `Linker::Result::getArrivalCount`: the number of stored template
results. -/
def LinkerResult.getArrivalCount (r : LinkerResult) : ℕ := r.results.length

/-- `Linker::Event`: a queued candidate detection with its on-hold deadline
(`expired`), the reference pick time seen so far, and the accumulated
result. -/
structure Event where
  expired : ℚ
  refPickTime : Option ℚ
  result : LinkerResult
  deriving DecidableEq, Repr

/-- A fresh event as constructed by `Linker::process` (`Event event{now +
_onHold}`): deadline set, nothing merged yet. -/
def Event.fresh (deadline : ℚ) : Event :=
  ⟨deadline, none, ⟨[], 0, "", ⟨[]⟩⟩⟩

/-- `Linker::Event::getArrivalCount`. -/
def Event.getArrivalCount (e : Event) : ℕ := e.result.getArrivalCount

/-- `Linker::Event::mergeResult` (linker.cpp, lines 237-258).  Note that
`templResults.emplace(procId, res)` keeps an already present entry; the fit is
then recomputed over the stored results, the POT is overwritten with the
caller's candidate POT, and the reference pick time/processor id are updated
from `res` whenever `res`'s pick time undercuts the running minimum —
regardless of whether `res` was actually stored. -/
def Event.mergeResult (e : Event) (procId : ProcId) (res : TemplateResult)
    (pot : POT) : Event :=
  let templResults := alistEmplace e.result.results procId res
  let fits := templResults.map (·.2.matchResult.coefficient)
  let newRef : Bool :=
    match e.refPickTime with
    | none => true
    | some t => res.arrival.pick.time < t
  { e with
    refPickTime := if newRef then some res.arrival.pick.time else e.refPickTime
    result :=
      { e.result with
        results := templResults
        fit := cma fits
        pot := pot
        refProcId := if newRef then procId else e.result.refProcId } }

/-- The `(templateProc, templateArrival)` binding stored per processor id in
`Linker::_processors`; of the template processor only the template start time
matters to the linker code under study. -/
structure LinkerProc where
  templateStartTime : Option ℚ
  arrival : Arrival
  deriving DecidableEq, Repr

/-- Modelled from the spec (linker.h is not among the sources at hand): the
linker status; the spec names `WaitingForData` and `Terminated`, with
`status() < Status::kTerminated` the gate for further feeding. -/
inductive LStatus where
  | kWaitingForData
  | kTerminated
  deriving DecidableEq, Repr

/-- The numeric value backing the C++ enum comparison `status() < kTerminated`. -/
def LStatus.toNat : LStatus → ℕ
  | .kWaitingForData => 0
  | .kTerminated => 1

/-- The linker state (`Linker`'s data members). -/
structure Linker where
  processors : List (ProcId × LinkerProc)
  thresArrivalOffset : Option ℚ
  thresResult : Option ℚ
  minArrivals : Option ℕ
  onHold : ℚ
  queue : List Event
  pot : POT
  potValid : Bool
  status : LStatus
  deriving DecidableEq, Repr

/-- `Linker::getProcessorCount`. -/
def Linker.getProcessorCount (st : Linker) : ℕ := st.processors.length

/-- `Linker::getAssociatedChannelCount` (linker.cpp, lines 49-56): the number
of distinct waveform stream ids among the registered processors' template
arrivals (an `std::unordered_set` is filled and its size returned). -/
def Linker.getAssociatedChannelCount (st : Linker) : ℕ :=
  ((st.processors.map (·.2.arrival.pick.waveformStreamId)).dedup).length

/-- `Linker::add` (linker.cpp, lines 60-66), non-null processor path:
`_processors.emplace(proc->id(), Processor{proc, arrival}); _potValid = false;`. -/
def Linker.add (st : Linker) (procId : ProcId) (p : LinkerProc) : Linker :=
  { st with
    processors := alistEmplace st.processors procId p
    potValid := false }

/-- `Linker::remove` (linker.cpp, lines 68-71). -/
def Linker.remove (st : Linker) (procId : ProcId) : Linker :=
  { st with
    processors := alistErase st.processors procId
    potValid := false }

/-- `Linker::reset` (linker.cpp, lines 73-78). -/
def Linker.reset (st : Linker) : Linker :=
  { st with queue := [], potValid := false, status := .kWaitingForData }

/-- The default used wherever the C++ reads
`_minArrivals.value_or(getProcessorCount())`. -/
def Linker.minArrivalsDefault (st : Linker) : ℕ :=
  st.minArrivals.getD st.getProcessorCount

/-- The fit gate `(!_thresResult || fit >= *_thresResult)` shared by
`Linker::terminate` and `Linker::process`. -/
def Linker.fitOk (st : Linker) (r : LinkerResult) : Bool :=
  match st.thresResult with
  | none => true
  | some thr => decide (r.fit ≥ thr)

/-- The emission test of `Linker::terminate`: arrival count at least
`minArrivals` (defaulting to the processor count) and fit over the result
threshold when one is configured. -/
def Linker.terminateEmits (st : Linker) (e : Event) : Bool :=
  decide (e.getArrivalCount ≥ st.minArrivalsDefault) && st.fitOk e.result

/-- The `while (!_queue.empty())` loop of `Linker::terminate`, collecting the
emitted results front to back. -/
def Linker.terminateLoop (st : Linker) : List Event → List LinkerResult
  | [] => []
  | e :: rest =>
    if st.terminateEmits e then e.result :: st.terminateLoop rest
    else st.terminateLoop rest

/-- `Linker::terminate` (linker.cpp, lines 80-92): flush the queue, emitting
the qualifying events, then set the status to terminated. -/
def Linker.terminate (st : Linker) : Linker × List LinkerResult :=
  ({ st with queue := [], status := .kTerminated }, st.terminateLoop st.queue)

/-- `Linker::createPot` (linker.cpp, lines 211-221): rebuild the reference POT
from all registered template arrivals and mark it valid. -/
def Linker.createPot (st : Linker) : Linker :=
  { st with
    pot := POT.ofArrivals (st.processors.map (·.2.arrival))
    potValid := true }

/-- The stream ids of an event's currently stored arrivals — the `wfIds` set
built in `Linker::process` (lines 147-152) while collecting the candidate
arrival vector. -/
def Event.memberStreams (e : Event) : List String :=
  e.result.results.map (·.2.arrival.pick.waveformStreamId)

/-- The candidate arrival vector of `Linker::process` (lines 146-152): the new
result's arrival followed by the event's stored arrivals, turned into a POT
(`POT pot{arrivals};`, line 154). -/
def candidatePOT (res : TemplateResult) (e : Event) : POT :=
  POT.ofArrivals (res.arrival :: e.result.results.map (·.2.arrival))

/-- The eligibility test of the merge loop (lines 141-145): the event is not
yet fully associated, and either it lacks a result for `procId` or the new
coefficient strictly exceeds the stored one. -/
def Linker.eligible (st : Linker) (procId : ProcId) (res : TemplateResult)
    (e : Event) : Bool :=
  decide (e.getArrivalCount < st.getProcessorCount) &&
    (match alistFind e.result.results procId with
     | none => true
     | some stored =>
       decide (res.matchResult.coefficient > stored.matchResult.coefficient))

/-- The validation of `Linker::process` (lines 156-163) against a given state
of the reference POT: disable the streams of the event's stored arrivals in
the reference POT, run `validatePickOffsets` against the candidate POT, and
demand success with an empty `exceeded` set. -/
def validationPasses (pot : POT) (thr : ℚ) (res : TemplateResult) (e : Event) :
    Bool :=
  let out := validatePickOffsets (pot.disableStreams e.memberStreams)
    (candidatePOT res e) thr
  out.1 && out.2.isEmpty

/-- One iteration of the merge loop of `Linker::process` (lines 139-172) for
queue entry `e`, with `pot` the current state of the member `_pot`.  Returns
the (possibly merged) event together with the state `_pot` is left in:
* a fully associated event is skipped, `_pot` untouched;
* an ineligible event is skipped but `_pot.enable()` (line 170) still runs;
* with `arrivalOffsetThreshold` configured, `_pot.disable(wfIds)` runs first;
  a failed validation `continue`s — skipping line 170, so the disables stay in
  `_pot` for the next iteration — while a successful one merges and then
  re-enables;
* without the threshold the result is merged unconditionally and `_pot`
  re-enabled. -/
def Linker.mergeStep (st : Linker) (procId : ProcId) (res : TemplateResult)
    (pot : POT) (e : Event) : Event × POT :=
  if e.getArrivalCount < st.getProcessorCount then
    if st.eligible procId res e then
      match st.thresArrivalOffset with
      | some thr =>
        if validationPasses pot thr res e then
          (e.mergeResult procId res (candidatePOT res e),
            (pot.disableStreams e.memberStreams).enableAll)
        else (e, pot.disableStreams e.memberStreams)
      | none =>
        (e.mergeResult procId res (candidatePOT res e), pot.enableAll)
    else (e, pot.enableAll)
  else (e, pot)

/-- The merge loop of `Linker::process` (lines 139-172), threading the state
of `_pot` through the queue front to back. -/
def Linker.mergeLoop (st : Linker) (procId : ProcId) (res : TemplateResult) :
    POT → List Event → List Event × POT
  | pot, [] => ([], pot)
  | pot, e :: rest =>
    let step := st.mergeStep procId res pot e
    let tail := st.mergeLoop procId res step.2 rest
    (step.1 :: tail.1, tail.2)

/-- The sweep emission test of `Linker::process` (lines 184-186): fully
associated, or past the deadline with at least `minArrivals` (defaulting to
the processor count) arrivals. -/
def Linker.sweepQualifies (st : Linker) (now : ℚ) (e : Event) : Bool :=
  decide (e.getArrivalCount = st.getProcessorCount) ||
    (decide (now ≥ e.expired) &&
      decide (e.getArrivalCount ≥ st.minArrivalsDefault))

/-- The queue sweep of `Linker::process` (lines 180-201): walk the queue front
to back; a qualifying event is emitted when it passes the fit gate and is
marked for removal either way; a non-qualifying event past its deadline is
marked for removal without emission; everything marked is then erased.
Returns (emitted results, surviving queue). -/
def Linker.sweep (st : Linker) (now : ℚ) :
    List Event → List LinkerResult × List Event
  | [] => ([], [])
  | e :: rest =>
    let tail := st.sweep now rest
    if st.sweepQualifies now e then
      if st.fitOk e.result then (e.result :: tail.1, tail.2)
      else (tail.1, tail.2)
    else if now ≥ e.expired then (tail.1, tail.2)
    else (tail.1, e :: tail.2)

/-- The single-result event appended by `Linker::process` (lines 174-178):
`Event event{now + _onHold}; event.mergeResult(procId, res, POT{{res.arrival}});`. -/
def Linker.newEvent (st : Linker) (procId : ProcId) (res : TemplateResult)
    (now : ℚ) : Event :=
  (Event.fresh (now + st.onHold)).mergeResult procId res
    (POT.ofArrivals [res.arrival])

/-- The POT refresh at the top of `Linker::process` (lines 131-133):
`if (!_potValid) { createPot(); }`. -/
def Linker.ensurePot (st : Linker) : Linker :=
  if st.potValid then st else st.createPot

/-- `Linker::process` (linker.cpp, lines 127-203).  `now` stands for
`Core::Time::GMT()`.  Returns the new state and the results emitted through
the callback, in emission order.  On an empty processor map nothing happens.
Otherwise: ensure the reference POT is valid, enable it fully (line 134), run
the merge loop over the queue, append the new single-result event, then
sweep. -/
def Linker.process (st : Linker) (procId : ProcId) (res : TemplateResult)
    (now : ℚ) : Linker × List LinkerResult :=
  if st.processors.isEmpty then (st, [])
  else
    let st₁ := st.ensurePot
    let merged := st₁.mergeLoop procId res st₁.pot.enableAll st₁.queue
    let q₂ := merged.1 ++ [st₁.newEvent procId res now]
    let swept := st₁.sweep now q₂
    ({ st₁ with queue := swept.2, pot := merged.2 }, swept.1)

/-- `Linker::feed` (linker.cpp, lines 94-121), for a non-null processor and
match result.  Proceeds only while `status() < Status::kTerminated` and the
processor is registered; when the template start time is known, the template
arrival's pick time is recomputed as
`res->timeWindow.startTime() + TimeSpan{res->lag} + (arrival.pick.time - templateStartTime)`
and the pair handed to `process`. -/
def Linker.feed (st : Linker) (procId : ProcId) (res : MatchResult) (now : ℚ) :
    Linker × List LinkerResult :=
  if st.status.toNat < LStatus.kTerminated.toNat then
    match alistFind st.processors procId with
    | none => (st, [])
    | some linkerProc =>
      match linkerProc.templateStartTime with
      | none => (st, [])
      | some templateStart =>
        let pickOffset := linkerProc.arrival.pick.time - templateStart
        let newArrival :=
          { linkerProc.arrival with
            pick :=
              { linkerProc.arrival.pick with
                time := res.timeWindowStart + res.lag + pickOffset } }
        st.process procId ⟨newArrival, res⟩ now
  else (st, [])

/-- The `continue` branch of the merge loop (lines 161-164): the event is
eligible, an arrival-offset threshold is configured, and the validation
against the given state of the reference POT fails (or leaves a non-empty
`exceeded` set).  Only this branch skips the `_pot.enable()` of line 170. -/
def Linker.stepFailsValidation (st : Linker) (procId : ProcId)
    (res : TemplateResult) (pot : POT) (e : Event) : Bool :=
  st.eligible procId res e &&
    (match st.thresArrivalOffset with
     | some thr => !validationPasses pot thr res e
     | none => false)

/- ------------------------------------------------------------------------ -/
/- Concrete states used by the witnesses and counterexamples                -/
/- ------------------------------------------------------------------------ -/

/-- A template arrival on stream `c1s` used by the sweep witness. -/
def c1arr : Arrival := ⟨⟨3, "c1s"⟩, "P"⟩

/-- A template result for the sweep witness. -/
def c1tr : TemplateResult := ⟨c1arr, ⟨0, 0, 1⟩⟩

/-- A linker with a single registered processor and an empty queue: feeding
one result fully associates the freshly appended event, so the sweep emits it
immediately. -/
def c1st : Linker :=
  ⟨[("c1p", ⟨some 0, c1arr⟩)], none, none, none, 10, [], ⟨[]⟩, false,
    .kWaitingForData⟩

/-- Stored arrival (pick time 10) of the event used to exhibit the
`mergeResult` emplace slip. -/
def c2a1 : Arrival := ⟨⟨10, "c2s1"⟩, "P"⟩

/-- Second registered template arrival for the same scenario. -/
def c2a2 : Arrival := ⟨⟨8, "c2s2"⟩, "P"⟩

/-- The new arrival carried by the better match (pick time 5). -/
def c2a1new : Arrival := ⟨⟨5, "c2s1"⟩, "P"⟩

/-- The stored template result: coefficient 1/2. -/
def c2trOld : TemplateResult := ⟨c2a1, ⟨0, 0, 1/2⟩⟩

/-- The strictly better incoming template result: coefficient 9/10. -/
def c2trNew : TemplateResult := ⟨c2a1new, ⟨0, 0, 9/10⟩⟩

/-- The queued event already holding `c2trOld` for processor `c2p1`. -/
def c2event : Event :=
  (Event.fresh 100).mergeResult "c2p1" c2trOld (POT.ofArrivals [c2a1])

/-- Two registered processors, no arrival-offset threshold (so validation is
skipped), the event above queued. -/
def c2st : Linker :=
  ⟨[("c2p1", ⟨some 0, c2a1⟩), ("c2p2", ⟨some 0, c2a2⟩)], none, none, none, 10,
    [c2event], ⟨[]⟩, false, .kWaitingForData⟩

/-- Reference arrival of stream `c3s1` (pick 0). -/
def c3a1 : Arrival := ⟨⟨0, "c3s1"⟩, "P"⟩

/-- Reference arrival of stream `c3s2` (pick 12/100). -/
def c3a2 : Arrival := ⟨⟨12/100, "c3s2"⟩, "P"⟩

/-- Reference arrival of stream `c3s3` (pick 25/100). -/
def c3a3 : Arrival := ⟨⟨25/100, "c3s3"⟩, "P"⟩

/-- The template result already stored in the queued event (processor
`c3p1`, stream `c3s1`). -/
def c3trStored : TemplateResult := ⟨c3a1, ⟨0, 0, 7/10⟩⟩

/-- The incoming template result for processor `c3p2` (stream `c3s2`), with a
pick offset matching the reference. -/
def c3res : TemplateResult := ⟨c3a2, ⟨0, 0, 4/5⟩⟩

/-- The queued event holding only `c3p1`'s result; its member stream set is
`{c3s1}`. -/
def c3event : Event :=
  (Event.fresh 100).mergeResult "c3p1" c3trStored (POT.ofArrivals [c3a1])

/-- Three registered processors with an arrival-offset threshold of 1/100 and
the single-member event queued. -/
def c3st : Linker :=
  ⟨[("c3p1", ⟨some 0, c3a1⟩), ("c3p2", ⟨some 0, c3a2⟩),
      ("c3p3", ⟨some 0, c3a3⟩)], some (1/100), none, none, 10, [c3event],
    ⟨[]⟩, false, .kWaitingForData⟩

/-- First merged arrival for the refProcId scenario: processor `c4p1`, pick
time 10, coefficient 1/2. -/
def c4trA : TemplateResult := ⟨⟨⟨10, "c4s1"⟩, "P"⟩, ⟨0, 0, 1/2⟩⟩

/-- Second merged arrival: processor `c4p2`, pick time 8, coefficient 3/5. -/
def c4trB : TemplateResult := ⟨⟨⟨8, "c4s2"⟩, "P"⟩, ⟨0, 0, 3/5⟩⟩

/-- Third merge, again for `c4p1`: pick time 5 and a strictly better
coefficient 9/10 — the configuration reached through the merge loop's
improving-coefficient branch. -/
def c4trC : TemplateResult := ⟨⟨⟨5, "c4s1"⟩, "P"⟩, ⟨0, 0, 9/10⟩⟩

/-- The event after the three merges above. -/
def c4event : Event :=
  (((Event.fresh 100).mergeResult "c4p1" c4trA
        (POT.ofArrivals [c4trA.arrival])).mergeResult "c4p2" c4trB
      (POT.ofArrivals [c4trA.arrival, c4trB.arrival])).mergeResult "c4p1"
    c4trC (POT.ofArrivals [c4trC.arrival, c4trA.arrival, c4trB.arrival])

/-- Template arrival for the feed witness (pick time 7). -/
def c5arr : Arrival := ⟨⟨7, "c5s"⟩, "P"⟩

/-- Processor binding for the feed witness: template start time 2. -/
def c5lp : LinkerProc := ⟨some 2, c5arr⟩

/-- Match result for the feed witness: window start 100, lag 1/2. -/
def c5res : MatchResult := ⟨100, 1/2, 9/10⟩

/-- Linker with the single processor `c5p` registered, waiting for data. -/
def c5st : Linker :=
  ⟨[("c5p", c5lp)], none, none, none, 10, [], ⟨[]⟩, false, .kWaitingForData⟩

/-- First registered arrival of the termination scenario. -/
def c6a1 : Arrival := ⟨⟨1, "c6s1"⟩, "P"⟩

/-- Second registered arrival of the termination scenario. -/
def c6a2 : Arrival := ⟨⟨2, "c6s2"⟩, "P"⟩

/-- The fully associated queued event (two results, both processors). -/
def c6full : Event :=
  ((Event.fresh 100).mergeResult "c6p1" ⟨c6a1, ⟨0, 0, 1⟩⟩
      (POT.ofArrivals [c6a1])).mergeResult "c6p2" ⟨c6a2, ⟨0, 0, 1⟩⟩
    (POT.ofArrivals [c6a1, c6a2])

/-- The under-associated queued event (a single result, below the default
`minArrivals` of 2). -/
def c6under : Event :=
  (Event.fresh 100).mergeResult "c6p1" ⟨c6a1, ⟨0, 0, 1⟩⟩
    (POT.ofArrivals [c6a1])

/-- Two registered processors, both events queued, no thresholds. -/
def c6st : Linker :=
  ⟨[("c6p1", ⟨some 0, c6a1⟩), ("c6p2", ⟨some 0, c6a2⟩)], none, none, none,
    10, [c6full, c6under], ⟨[]⟩, false, .kWaitingForData⟩

/-- The binding first registered for processor id `c7p`. -/
def c7b1 : LinkerProc := ⟨some 1, ⟨⟨1, "c7s1"⟩, "P"⟩⟩

/-- A different binding later `add`ed under the same processor id. -/
def c7b2 : LinkerProc := ⟨some 2, ⟨⟨2, "c7s2"⟩, "P"⟩⟩

/-- A linker holding only the first binding for `c7p`. -/
def c7st : Linker :=
  (⟨[], none, none, none, 0, [], ⟨[]⟩, true,
      .kWaitingForData⟩ : Linker).add "c7p" c7b1

/-- Two processors whose template arrivals share the waveform stream
`c8s`. -/
def c8st : Linker :=
  ⟨[("c8p1", ⟨some 0, ⟨⟨1, "c8s"⟩, "P"⟩⟩),
      ("c8p2", ⟨some 0, ⟨⟨2, "c8s"⟩, "S"⟩⟩)], none, none, none, 0, [],
    ⟨[]⟩, true, .kWaitingForData⟩

/-- Two processors on distinct streams, for the amended channel-count
witness. -/
def c8stDistinct : Linker :=
  ⟨[("c8q1", ⟨some 0, ⟨⟨1, "c8t1"⟩, "P"⟩⟩),
      ("c8q2", ⟨some 0, ⟨⟨2, "c8t2"⟩, "S"⟩⟩)], none, none, none, 0, [],
    ⟨[]⟩, true, .kWaitingForData⟩

/- ------------------------------------------------------------------------ -/
/- Helper lemmas                                                            -/
/- ------------------------------------------------------------------------ -/

theorem terminateLoop_eq_filter (st : Linker) (q : List Event) :
    st.terminateLoop q =
      (q.filter (fun e => st.terminateEmits e)).map (·.result) := by
  induction q with
  | nil => rfl
  | cons e rest ih =>
    by_cases h : st.terminateEmits e = true <;>
      simp [Linker.terminateLoop, h, ih, List.filter_cons]

theorem ensurePot_processors (st : Linker) :
    st.ensurePot.processors = st.processors := by
  unfold Linker.ensurePot Linker.createPot
  split <;> rfl

theorem ensurePot_minArrivals (st : Linker) :
    st.ensurePot.minArrivals = st.minArrivals := by
  unfold Linker.ensurePot Linker.createPot
  split <;> rfl

theorem ensurePot_thresResult (st : Linker) :
    st.ensurePot.thresResult = st.thresResult := by
  unfold Linker.ensurePot Linker.createPot
  split <;> rfl

theorem ensurePot_thresArrivalOffset (st : Linker) :
    st.ensurePot.thresArrivalOffset = st.thresArrivalOffset := by
  unfold Linker.ensurePot Linker.createPot
  split <;> rfl

theorem ensurePot_queue (st : Linker) : st.ensurePot.queue = st.queue := by
  unfold Linker.ensurePot Linker.createPot
  split <;> rfl

theorem sweep_eq_filter (st : Linker) (now : ℚ) (q : List Event) :
    st.sweep now q =
      ((q.filter (fun e => st.sweepQualifies now e && st.fitOk e.result)).map
          (·.result),
        q.filter (fun e =>
          !st.sweepQualifies now e && !decide (now ≥ e.expired))) := by
  induction q with
  | nil => rfl
  | cons e rest ih =>
    simp only [Linker.sweep, ih, List.filter_cons]
    by_cases h₁ : st.sweepQualifies now e <;>
      by_cases h₂ : st.fitOk e.result <;>
      by_cases h₃ : now ≥ e.expired <;>
      simp [h₁, h₂, h₃]

/- ------------------------------------------------------------------------ -/
/- C9                                                                        -/
/- ------------------------------------------------------------------------ -/

/-- C9: config-time threshold validation accepts an `xcorrThreshold` exactly
when it lies in `[-1, 1]`, and accepts an `arrivalOffsetThreshold` exactly
when it is negative (disabled) or at least `2.0e-6` seconds. -/
theorem validators_threshold_ranges (t : ℚ) :
    (ValidateXCorrThreshold t = true ↔ (-1 ≤ t ∧ t ≤ 1)) ∧
    (ValidateArrivalOffsetThreshold t = true ↔ (t < 0 ∨ 2 / 1000000 ≤ t)) := by
  constructor
  · simp [ValidateXCorrThreshold, ge_iff_le]
  · simp [ValidateArrivalOffsetThreshold, ge_iff_le]

/- ------------------------------------------------------------------------ -/
/- C10                                                                       -/
/- ------------------------------------------------------------------------ -/

/-- C10: `waveform::Trim` returns `false` and leaves the trace completely
unchanged exactly when the requested window needs samples before the trace's
start (negative truncated start-sample offset) or past its end (the sample
range `[offset, offset + samples)` overruns the data); otherwise it returns
`true` and mutates the trace by advancing the start time by
`offset / samplingFrequency` and slicing the data to the window. -/
theorem waveform_trim_spec (trace : GenericRecord) (tw : TimeWindow) :
    Trim trace tw =
      (if trimOffset trace tw < 0 ∨
          trimOffset trace tw + trimSamples trace tw > (trace.data.length : ℤ)
       then (false, trace)
       else (true,
        { trace with
          startTime := trace.startTime +
            (trimOffset trace tw : ℚ) / trace.samplingFrequency
          data := (trace.data.drop (trimOffset trace tw).toNat).take
            (trimSamples trace tw).toNat })) := by
  unfold Trim
  by_cases h₁ : trimOffset trace tw < 0
  · simp [h₁]
  · by_cases h₂ :
      trimOffset trace tw + trimSamples trace tw > (trace.data.length : ℤ) <;>
      simp [h₁, h₂]

/- ------------------------------------------------------------------------ -/
/- C8                                                                        -/
/- ------------------------------------------------------------------------ -/

/-- C8 counterexample: with two registered processors whose template arrivals
share the waveform stream `c8s`, the associated channel count is 1 while the
processor count is 2, so the two are not equal for every linker state. -/
theorem linker_associated_count_counterexample :
    c8st.getAssociatedChannelCount = 1 ∧ c8st.getProcessorCount = 2 ∧
      ¬ c8st.getAssociatedChannelCount = c8st.getProcessorCount := by
  refine ⟨by decide, by decide, by decide⟩

/-- C8 (amended): `getAssociatedChannelCount` counts the distinct waveform
stream ids among the registered processors' template arrivals, so it equals
`getProcessorCount` exactly when those stream ids are pairwise distinct. -/
theorem linker_associated_count_spec (st : Linker) :
    st.getAssociatedChannelCount = st.getProcessorCount ↔
      (st.processors.map (fun p => p.2.arrival.pick.waveformStreamId)).Nodup := by
  unfold Linker.getAssociatedChannelCount Linker.getProcessorCount
  constructor
  · intro h
    have hlen :
        ((st.processors.map
            (fun p => p.2.arrival.pick.waveformStreamId)).dedup).length =
          (st.processors.map
            (fun p => p.2.arrival.pick.waveformStreamId)).length := by
      rw [List.length_map]; exact h
    have heq := (List.dedup_sublist _).eq_of_length hlen
    have hnd := List.nodup_dedup
      (st.processors.map (fun p => p.2.arrival.pick.waveformStreamId))
    rwa [heq] at hnd
  · intro h
    rw [List.dedup_eq_self.mpr h, List.length_map]

/- ------------------------------------------------------------------------ -/
/- C7                                                                        -/
/- ------------------------------------------------------------------------ -/

/-- C7 counterexample: `add` with an already registered processor id keeps the
prior binding — after adding `c7b2` under the id `c7p` that already maps to
`c7b1`, the lookup still yields `c7b1`, not the newly added `c7b2`. -/
theorem linker_add_duplicate_counterexample :
    alistFind ((c7st.add "c7p" c7b2).processors) "c7p" = some c7b1 ∧
      c7b1 ≠ c7b2 := by
  refine ⟨by decide, by decide⟩

/-- C7 (amended): `add` with an already registered processor id leaves the
prior binding in place (`std::unordered_map::emplace` does not overwrite) and
still invalidates the cached reference POT. -/
theorem linker_add_duplicate_spec (st : Linker) (procId : ProcId)
    (b₀ b : LinkerProc) (h : alistFind st.processors procId = some b₀) :
    alistFind ((st.add procId b).processors) procId = some b₀ ∧
      (st.add procId b).potValid = false := by
  have hs : (st.processors.find? (fun p => p.1 = procId)).isSome = true := by
    unfold alistFind at h
    cases hf : st.processors.find? (fun p => p.1 = procId) <;>
      rw [hf] at h <;> simp_all
  refine ⟨?_, rfl⟩
  show alistFind (alistEmplace st.processors procId b) procId = some b₀
  unfold alistEmplace
  rw [if_pos hs]
  exact h

/-- C7 witness: the amended statement at the concrete duplicate
registration. -/
theorem linker_add_duplicate_spec_witness :
    alistFind c7st.processors "c7p" = some c7b1 ∧
      (alistFind ((c7st.add "c7p" c7b2).processors) "c7p" = some c7b1 ∧
        (c7st.add "c7p" c7b2).potValid = false) :=
  ⟨by decide, linker_add_duplicate_spec c7st "c7p" c7b1 c7b2 (by decide)⟩

/- ------------------------------------------------------------------------ -/
/- C2                                                                        -/
/- ------------------------------------------------------------------------ -/

/-- C2 (code bug): feeding a strictly better result (coefficient 9/10 > 1/2)
for a processor id already stored in a queued event does NOT replace the
stored result — `Event::mergeResult` inserts with
`std::unordered_map::emplace`, which keeps the existing entry — so after
`Linker::process` the event still holds the old arrival and coefficient. -/
theorem linker_process_merge_keeps_old_result :
    c2trNew.matchResult.coefficient > c2trOld.matchResult.coefficient ∧
    ((c2st.process "c2p1" c2trNew 0).1.queue.head?.map
        (fun e => alistFind e.result.results "c2p1")) = some (some c2trOld) ∧
    c2trOld ≠ c2trNew := by
  refine ⟨by decide, by decide, by decide⟩

/- ------------------------------------------------------------------------ -/
/- C4                                                                        -/
/- ------------------------------------------------------------------------ -/

/-- C4 (code bug): after merging, for an already stored processor id, a result
with a smaller pick time (the improving-coefficient branch of the merge loop),
the stored result is not replaced but the reference pick time is still
lowered: `refProcId` ends up naming `c4p1`, whose stored arrival (pick time
10) is not the member with the smallest pick time — `c4p2`'s stored arrival
has pick time 8.  The at-most-one-entry-per-procId and fit = mean invariants
are unaffected. -/
theorem linker_mergeResult_refProcId_bug :
    c4event.result.refProcId = "c4p1" ∧
    alistFind c4event.result.results "c4p1" = some c4trA ∧
    alistFind c4event.result.results "c4p2" = some c4trB ∧
    c4trB.arrival.pick.time < c4trA.arrival.pick.time := by
  refine ⟨by decide, by decide, by decide, by decide⟩

/- ------------------------------------------------------------------------ -/
/- C6                                                                        -/
/- ------------------------------------------------------------------------ -/

/-- C6: `terminate` emits exactly the queued events with arrival count at
least `minArrivals` (defaulting to the registered processor count when unset)
whose fit passes the result threshold when one is configured, drops every
other queued event irrespective of its deadline, leaves the queue empty and
sets the status to Terminated; in particular, with one fully associated event
and one event below `minArrivals` queued, exactly one detection is emitted. -/
theorem linker_terminate_spec :
    (∀ st : Linker,
      (st.terminate).2 =
        (st.queue.filter (fun e =>
          decide (e.getArrivalCount ≥ st.minArrivals.getD st.getProcessorCount) &&
            st.fitOk e.result)).map (·.result) ∧
      (st.terminate).1.queue = [] ∧
      (st.terminate).1.status = LStatus.kTerminated) ∧
    (c6st.terminate).2 = [c6full.result] := by
  constructor
  · intro st
    refine ⟨?_, rfl, rfl⟩
    show st.terminateLoop st.queue = _
    rw [terminateLoop_eq_filter]
    rfl
  · decide

/- ------------------------------------------------------------------------ -/
/- C1                                                                        -/
/- ------------------------------------------------------------------------ -/

/-- C1: in `Linker::process`, after the merge loop has run and the new
single-result event has been appended, the sweep emits exactly the queued
events that are fully associated (`arrivalCount == |processors|`) or past
their on-hold deadline with `arrivalCount ≥ minArrivals` (an unset
`minArrivals` defaulting to `|processors|`), and only those that pass the
configured result threshold; the surviving queue holds exactly the events
that neither qualify nor are past their deadline — so every emitted or
expired event, and every full-but-below-threshold event, is removed. -/
theorem linker_process_sweep_spec (st : Linker) (procId : ProcId)
    (res : TemplateResult) (now : ℚ) (h : st.processors ≠ []) :
    (st.process procId res now).2 =
      ((((st.ensurePot).mergeLoop procId res (st.ensurePot).pot.enableAll
            st.queue).1 ++ [(st.ensurePot).newEvent procId res now]).filter
          (fun e =>
            (decide (e.getArrivalCount = st.getProcessorCount) ||
              (decide (now ≥ e.expired) &&
                decide (e.getArrivalCount ≥
                  st.minArrivals.getD st.getProcessorCount))) &&
            st.fitOk e.result)).map (·.result) ∧
    (st.process procId res now).1.queue =
      (((st.ensurePot).mergeLoop procId res (st.ensurePot).pot.enableAll
            st.queue).1 ++ [(st.ensurePot).newEvent procId res now]).filter
        (fun e =>
          !((decide (e.getArrivalCount = st.getProcessorCount) ||
              (decide (now ≥ e.expired) &&
                decide (e.getArrivalCount ≥
                  st.minArrivals.getD st.getProcessorCount)))) &&
          !decide (now ≥ e.expired)) := by
  have hne : st.processors.isEmpty = false := by
    cases hp : st.processors
    · exact absurd hp h
    · rfl
  have hqual : ∀ e : Event,
      (st.ensurePot).sweepQualifies now e =
        ((decide (e.getArrivalCount = st.getProcessorCount) ||
          (decide (now ≥ e.expired) &&
            decide (e.getArrivalCount ≥
              st.minArrivals.getD st.getProcessorCount)))) := by
    intro e
    unfold Linker.sweepQualifies Linker.minArrivalsDefault
      Linker.getProcessorCount
    rw [ensurePot_processors, ensurePot_minArrivals]
  have hfit : (st.ensurePot).fitOk = st.fitOk := by
    funext r
    unfold Linker.fitOk
    rw [ensurePot_thresResult]
  unfold Linker.process
  rw [hne]
  simp only [Bool.false_eq_true, if_false, sweep_eq_filter, ensurePot_queue,
    hqual, hfit]
  constructor <;> trivial

/-- C1 witness: a linker with one registered processor and an empty queue;
the appended single-result event is fully associated, so the sweep emits it
immediately and the queue is left empty. -/
theorem linker_process_sweep_spec_witness :
    c1st.processors ≠ [] ∧
    ((c1st.process "c1p" c1tr 0).2 =
      ((((c1st.ensurePot).mergeLoop "c1p" c1tr (c1st.ensurePot).pot.enableAll
            c1st.queue).1 ++ [(c1st.ensurePot).newEvent "c1p" c1tr 0]).filter
          (fun e =>
            (decide (e.getArrivalCount = c1st.getProcessorCount) ||
              (decide ((0:ℚ) ≥ e.expired) &&
                decide (e.getArrivalCount ≥
                  c1st.minArrivals.getD c1st.getProcessorCount))) &&
            c1st.fitOk e.result)).map (·.result) ∧
    (c1st.process "c1p" c1tr 0).1.queue =
      (((c1st.ensurePot).mergeLoop "c1p" c1tr (c1st.ensurePot).pot.enableAll
            c1st.queue).1 ++ [(c1st.ensurePot).newEvent "c1p" c1tr 0]).filter
        (fun e =>
          !((decide (e.getArrivalCount = c1st.getProcessorCount) ||
              (decide ((0:ℚ) ≥ e.expired) &&
                decide (e.getArrivalCount ≥
                  c1st.minArrivals.getD c1st.getProcessorCount)))) &&
          !decide ((0:ℚ) ≥ e.expired))) :=
  ⟨by decide, linker_process_sweep_spec c1st "c1p" c1tr 0 (by decide)⟩

/- ------------------------------------------------------------------------ -/
/- C5                                                                        -/
/- ------------------------------------------------------------------------ -/

/-- C5: while the linker is not terminated, feeding a match result for a
registered processor whose template start time is known hands `process` an
arrival whose pick time is
`matchResult.window.start + lag + (templateArrival.pick - template.start)`. -/
theorem linker_feed_pick_time (st : Linker) (procId : ProcId)
    (res : MatchResult) (now : ℚ) (lp : LinkerProc) (t : ℚ)
    (hstatus : st.status = LStatus.kWaitingForData)
    (hproc : alistFind st.processors procId = some lp)
    (ht : lp.templateStartTime = some t) :
    st.feed procId res now =
      st.process procId
        ⟨{ lp.arrival with
            pick := { lp.arrival.pick with
              time := res.timeWindowStart + res.lag +
                (lp.arrival.pick.time - t) } }, res⟩ now := by
  unfold Linker.feed
  rw [hstatus]
  simp only [hproc, ht]
  rfl

/-- C5 witness: the recomputed pick time at a concrete feed —
window start 100, lag 1/2, template pick 7, template start 2. -/
theorem linker_feed_pick_time_witness :
    c5st.status = LStatus.kWaitingForData ∧
    alistFind c5st.processors "c5p" = some c5lp ∧
    c5lp.templateStartTime = some 2 ∧
    c5st.feed "c5p" c5res 0 =
      c5st.process "c5p"
        ⟨{ c5lp.arrival with
            pick := { c5lp.arrival.pick with
              time := c5res.timeWindowStart + c5res.lag +
                (c5lp.arrival.pick.time - 2) } }, c5res⟩ 0 :=
  ⟨rfl, by decide, rfl,
    linker_feed_pick_time c5st "c5p" c5res 0 c5lp 2 rfl (by decide) rfl⟩

/- ------------------------------------------------------------------------ -/
/- C3                                                                        -/
/- ------------------------------------------------------------------------ -/

theorem enableAll_enableAll (p : POT) : p.enableAll.enableAll = p.enableAll := by
  unfold POT.enableAll
  rw [List.map_map]
  rfl

theorem map_enable_after_disable (s : List String) (l : List POTEntry) :
    (l.map (fun e =>
        if e.arrival.pick.waveformStreamId ∈ s then { e with enabled := false }
        else e)).map (fun e => { e with enabled := true }) =
      l.map (fun e => { e with enabled := true }) := by
  induction l with
  | nil => rfl
  | cons x xs ih =>
    simp only [List.map_cons, ih, List.cons.injEq, and_true]
    by_cases h : x.arrival.pick.waveformStreamId ∈ s <;> simp [h]

theorem enableAll_disableStreams (p : POT) (s : List String) :
    (p.disableStreams s).enableAll = p.enableAll :=
  congrArg POT.mk (map_enable_after_disable s p.entries)

theorem mergeStep_pot_restores (st : Linker) (procId : ProcId)
    (res : TemplateResult) (p : POT) (e : Event)
    (h : st.stepFailsValidation procId res p.enableAll e = false) :
    (st.mergeStep procId res p.enableAll e).2 = p.enableAll := by
  unfold Linker.stepFailsValidation at h
  unfold Linker.mergeStep
  by_cases hc : e.getArrivalCount < st.getProcessorCount
  · rw [if_pos hc]
    by_cases he : st.eligible procId res e = true
    · rw [if_pos he]
      rw [he, Bool.true_and] at h
      cases hthr : st.thresArrivalOffset with
      | none => simp [enableAll_enableAll]
      | some thr =>
        rw [hthr] at h
        simp at h
        simp [h, enableAll_disableStreams, enableAll_enableAll]
    · rw [if_neg he]
      simp [enableAll_enableAll]
  · rw [if_neg hc]

theorem mergeLoop_pot_invariant (st : Linker) (procId : ProcId)
    (res : TemplateResult) (p : POT) (q : List Event)
    (h : ∀ e ∈ q, st.stepFailsValidation procId res p.enableAll e = false) :
    (st.mergeLoop procId res p.enableAll q).2 = p.enableAll := by
  induction q with
  | nil => rfl
  | cons e rest ih =>
    have h₁ := h e (List.mem_cons_self e rest)
    have hstep := mergeStep_pot_restores st procId res p e h₁
    unfold Linker.mergeLoop
    simp only [hstep]
    exact ih (fun e' he' => h e' (List.mem_cons_of_mem e he'))

theorem mergeLoop_append (st : Linker) (procId : ProcId)
    (res : TemplateResult) (pot : POT) (q₁ q₂ : List Event) :
    st.mergeLoop procId res pot (q₁ ++ q₂) =
      ((st.mergeLoop procId res pot q₁).1 ++
          (st.mergeLoop procId res (st.mergeLoop procId res pot q₁).2 q₂).1,
        (st.mergeLoop procId res (st.mergeLoop procId res pot q₁).2 q₂).2) := by
  induction q₁ generalizing pot with
  | nil => simp [Linker.mergeLoop]
  | cons e rest ih => simp [Linker.mergeLoop, ih]

theorem mergeLoop_cons (st : Linker) (procId : ProcId) (res : TemplateResult)
    (pot : POT) (e : Event) (rest : List Event) :
    st.mergeLoop procId res pot (e :: rest) =
      ((st.mergeStep procId res pot e).1 ::
          (st.mergeLoop procId res (st.mergeStep procId res pot e).2 rest).1,
        (st.mergeLoop procId res (st.mergeStep procId res pot e).2 rest).2) :=
  rfl

theorem mergeStep_head (st : Linker) (procId : ProcId) (res : TemplateResult)
    (pot : POT) (e : Event) (thr : ℚ)
    (hthr : st.thresArrivalOffset = some thr) :
    (st.mergeStep procId res pot e).1 =
      (if st.eligible procId res e && validationPasses pot thr res e
       then e.mergeResult procId res (candidatePOT res e) else e) := by
  unfold Linker.mergeStep
  by_cases hc : e.getArrivalCount < st.getProcessorCount
  · rw [if_pos hc, hthr]
    by_cases he : st.eligible procId res e = true
    · rw [if_pos he, he, Bool.true_and]
      by_cases hv : validationPasses pot thr res e = true <;> simp [hv]
    · rw [if_neg he]
      simp only [Bool.not_eq_true] at he
      simp [he]
  · rw [if_neg hc]
    have he : st.eligible procId res e = false := by
      unfold Linker.eligible
      simp [hc]
    simp [he]

/-- C3 (amended): with `arrivalOffsetThreshold` configured, in the merge loop
of `Linker::process` (run on the fully enabled reference POT, line 134), for a
queued event `e` that no earlier event preceded with a failed validation:
(i) the reference POT handed to `validatePickOffsets` has exactly the streams
PRESENT in `e` (those of its stored arrivals) disabled — not the streams
absent from `e`; (ii) the incoming result is merged into `e` exactly when `e`
is eligible (not full, improving coefficient) and the validation succeeds with
an empty exceeded set; (iii) after such a non-failing attempt the reference
POT is fully enabled again for the next event (after a failed validation the
disables leak into the next iteration, and line 134 restores full enablement
only at the next `process` call). -/
theorem linker_process_offset_validation (st : Linker) (procId : ProcId)
    (res : TemplateResult) (thr : ℚ) (q₁ : List Event) (e : Event)
    (q₂ : List Event)
    (hthr : st.thresArrivalOffset = some thr)
    (hq : st.queue = q₁ ++ e :: q₂)
    (hpre : ∀ e' ∈ q₁,
      (st.ensurePot).stepFailsValidation procId res
        ((st.ensurePot).pot.enableAll) e' = false) :
    (∀ en ∈ (((st.ensurePot).pot.enableAll).disableStreams
        e.memberStreams).entries,
      (en.enabled = false ↔ en.arrival.pick.waveformStreamId ∈
        e.memberStreams)) ∧
    ((st.ensurePot).mergeLoop procId res ((st.ensurePot).pot.enableAll)
        st.queue).1 =
      ((st.ensurePot).mergeLoop procId res ((st.ensurePot).pot.enableAll)
          q₁).1 ++
        (if (st.ensurePot).eligible procId res e &&
            validationPasses ((st.ensurePot).pot.enableAll) thr res e
         then e.mergeResult procId res (candidatePOT res e) else e) ::
        ((st.ensurePot).mergeLoop procId res
          ((st.ensurePot).mergeStep procId res ((st.ensurePot).pot.enableAll)
            e).2 q₂).1 ∧
    ((st.ensurePot).stepFailsValidation procId res
        ((st.ensurePot).pot.enableAll) e = false →
      ((st.ensurePot).mergeStep procId res ((st.ensurePot).pot.enableAll)
          e).2 = (st.ensurePot).pot.enableAll) := by
  have hthr' : (st.ensurePot).thresArrivalOffset = some thr := by
    rw [ensurePot_thresArrivalOffset]; exact hthr
  refine ⟨?_, ?_, ?_⟩
  · intro en hen
    unfold POT.disableStreams POT.enableAll at hen
    rw [List.map_map] at hen
    obtain ⟨x, _, hx⟩ := List.mem_map.mp hen
    by_cases hm :
        x.arrival.pick.waveformStreamId ∈ e.memberStreams <;>
      simp [Function.comp, hm] at hx <;> subst hx <;> simp [hm]
  · rw [hq, mergeLoop_append, mergeLoop_pot_invariant _ _ _ _ _ hpre,
      mergeLoop_cons, mergeStep_head _ _ _ _ _ _ hthr']
  · exact mergeStep_pot_restores (st.ensurePot) procId res
      ((st.ensurePot).pot) e

/-- C3 counterexample: at the concrete state `c3st` (three registered
streams, threshold configured) with queued event `c3event` holding only the
stream `c3s1`, the reference POT used for validation has exactly `c3s1` — a
stream PRESENT in the event — disabled, and the streams absent from the event
(`c3s2`, `c3s3`) remain enabled; so `process` does not disable the rows and
columns of the streams not present in the event, contradicting the claim. -/
theorem linker_process_offset_validation_counterexample :
    c3event.memberStreams = ["c3s1"] ∧
    (((c3st.ensurePot).pot.enableAll).disableStreams
        c3event.memberStreams).disabledStreams = ["c3s1"] ∧
    ¬ (∀ en ∈ (((c3st.ensurePot).pot.enableAll).disableStreams
          c3event.memberStreams).entries,
        (en.enabled = false ↔ en.arrival.pick.waveformStreamId ∉
          c3event.memberStreams)) := by
  refine ⟨by decide, by decide, by decide⟩

/-- C3 witness: the amended statement at the concrete state `c3st` with the
queued event first in the queue (no earlier events, so the precondition is
vacuous); the incoming result for `c3p2` matches the reference offsets, the
validation succeeds and the event is merged. -/
theorem linker_process_offset_validation_witness :
    c3st.thresArrivalOffset = some (1/100) ∧
    c3st.queue = [] ++ c3event :: [] ∧
    (∀ e' ∈ ([] : List Event),
      (c3st.ensurePot).stepFailsValidation "c3p2" c3res
        ((c3st.ensurePot).pot.enableAll) e' = false) ∧
    ((∀ en ∈ (((c3st.ensurePot).pot.enableAll).disableStreams
        c3event.memberStreams).entries,
      (en.enabled = false ↔ en.arrival.pick.waveformStreamId ∈
        c3event.memberStreams)) ∧
    ((c3st.ensurePot).mergeLoop "c3p2" c3res ((c3st.ensurePot).pot.enableAll)
        c3st.queue).1 =
      ((c3st.ensurePot).mergeLoop "c3p2" c3res
          ((c3st.ensurePot).pot.enableAll) []).1 ++
        (if (c3st.ensurePot).eligible "c3p2" c3res c3event &&
            validationPasses ((c3st.ensurePot).pot.enableAll) (1/100) c3res
              c3event
         then c3event.mergeResult "c3p2" c3res (candidatePOT c3res c3event)
         else c3event) ::
        ((c3st.ensurePot).mergeLoop "c3p2" c3res
          ((c3st.ensurePot).mergeStep "c3p2" c3res
            ((c3st.ensurePot).pot.enableAll) c3event).2 []).1 ∧
    ((c3st.ensurePot).stepFailsValidation "c3p2" c3res
        ((c3st.ensurePot).pot.enableAll) c3event = false →
      ((c3st.ensurePot).mergeStep "c3p2" c3res
          ((c3st.ensurePot).pot.enableAll) c3event).2 =
        (c3st.ensurePot).pot.enableAll)) :=
  ⟨by decide, rfl, by simp,
    linker_process_offset_validation c3st "c3p2" c3res (1/100) [] c3event []
      (by decide) rfl (by simp)⟩

end SCDetect
